import Mathlib

/-!
Verification of the floating-window manager of `ui-mindsphere/src/mindsphere-app.ts`.

Coordinates, sizes and z-values are JavaScript numbers; all arithmetic the
window manager performs on them (`+`, `-`, `Math.min`, `Math.max`, `Math.floor`)
is exact on ℚ, so they are modelled as rationals.  `Math.floor` is `jsFloor`
below.  The nullable `stageEl` field of the component is modelled as an
`Option StageRect`, the stage's bounding client rect being the payload.
-/

/-- `Math.floor` on a JavaScript number, as a map ℚ → ℚ. -/
def jsFloor (q : ℚ) : ℚ := ((⌊q⌋ : ℤ) : ℚ)

/-- The closed set of panel identities: `type WindowId = "chat" | "tasks" | "agents"`. -/
inductive WindowId where
  | chat
  | tasks
  | agents
deriving DecidableEq

/-- `type WindowRect = { x; y; w; h }`. -/
structure WindowRect where
  x : ℚ
  y : ℚ
  w : ℚ
  h : ℚ
deriving DecidableEq

/-- `type WindowState = { open; x; y; w; h; z; maximized?; restore? }`.
The `open` field is renamed `winOpen` (`open` is reserved in Lean); the
optional `maximized?: boolean` is modelled as a plain `Bool` (absent = `false`),
and the optional `restore?: WindowRect` as an `Option`. -/
structure WindowState where
  winOpen : Bool
  x : ℚ
  y : ℚ
  w : ℚ
  h : ℚ
  z : ℚ
  maximized : Bool
  restore : Option WindowRect
deriving DecidableEq

/-- The stage's bounding client rect (`stage.getBoundingClientRect()`),
restricted to the two fields the window manager reads. -/
structure StageRect where
  width : ℚ
  height : ℚ
deriving DecidableEq

/-- `private clampWindowToStage(id, s)` of `mindsphere-app.ts` (the unused `id`
parameter is dropped).  `stage = none` models `this.stageEl === null`. -/
def clampWindowToStage (stage : Option StageRect) (s : WindowState) : WindowState :=
  match stage with
  | none => s
  | some r =>
    if s.maximized then
      { s with x := 0, y := 0, w := jsFloor r.width, h := jsFloor r.height }
    else
      let minW : ℚ := 320
      let minH : ℚ := 240
      let w := max minW (min s.w (max minW r.width))
      let h := max minH (min s.h (max minH r.height))
      let maxX := max 0 (r.width - w)
      let maxY := max 0 (r.height - h)
      let x := max 0 (min s.x maxX)
      let y := max 0 (min s.y maxY)
      { s with x := x, y := y, w := w, h := h }

/-- The window registry `windows: Record<WindowId, WindowState>`. -/
structure Windows where
  chat : WindowState
  tasks : WindowState
  agents : WindowState
deriving DecidableEq

/-- `this.windows[id]`. -/
def Windows.get (ws : Windows) : WindowId → WindowState
  | .chat => ws.chat
  | .tasks => ws.tasks
  | .agents => ws.agents

/-- `this.windows = { ...this.windows, [id]: s }`. -/
def Windows.set (ws : Windows) (id : WindowId) (s : WindowState) : Windows :=
  match id with
  | .chat => { ws with chat := s }
  | .tasks => { ws with tasks := s }
  | .agents => { ws with agents := s }

/-- `Math.max(...Object.values(this.windows).map((w) => w.z))`. -/
def zTop (ws : Windows) : ℚ :=
  max ws.chat.z (max ws.tasks.z ws.agents.z)

/-- `private bringToFront(id)` of `mindsphere-app.ts`.  The registry is total,
so the `!cur` guard of the source cannot fire. -/
def bringToFront (ws : Windows) (id : WindowId) : Windows :=
  let zT := zTop ws
  let cur := ws.get id
  if cur.z = zT then ws
  else ws.set id { cur with z := zT + 1 }

/-- `private toggleMaximizeWindow(id)` of `mindsphere-app.ts`. -/
def toggleMaximizeWindow (stage : Option StageRect) (ws : Windows) (id : WindowId) : Windows :=
  let cur := ws.get id
  let nextMax := !cur.maximized
  let zT := zTop ws
  if nextMax then
    let restore : WindowRect := ⟨cur.x, cur.y, cur.w, cur.h⟩
    let next := clampWindowToStage stage
      { cur with maximized := true, restore := some restore, z := zT + 1 }
    ws.set id next
  else
    let nextRaw : WindowState :=
      match cur.restore with
      | some r =>
        { cur with x := r.x, y := r.y, w := r.w, h := r.h,
                   maximized := false, restore := none, z := zT + 1 }
      | none => { cur with maximized := false, restore := none, z := zT + 1 }
    ws.set id (clampWindowToStage stage nextRaw)

/-- `private toggleWindow(id)` of `mindsphere-app.ts` (the panel-specific data
refreshes that follow the registry commit touch no window state). -/
def toggleWindow (stage : Option StageRect) (ws : Windows) (id : WindowId) : Windows :=
  let cur := ws.get id
  let nextOpen := !cur.winOpen
  let zT := zTop ws
  let next := clampWindowToStage stage
    { cur with winOpen := nextOpen, z := if nextOpen then zT + 1 else cur.z }
  ws.set id next

/-- The initial registry assigned at field declaration. -/
def initialWindows : Windows where
  chat := { winOpen := false, x := 40, y := 40, w := 520, h := 520, z := 1,
            maximized := false, restore := none }
  tasks := { winOpen := false, x := 90, y := 70, w := 620, h := 520, z := 2,
             maximized := false, restore := none }
  agents := { winOpen := false, x := 140, y := 90, w := 860, h := 560, z := 3,
              maximized := false, restore := none }

section ClampLemmas

/-- Clamping a value already of the form `max lo (min v hi)` against the same
band gives it back, provided `lo ≤ hi`. -/
theorem max_min_reclamp (lo v hi : ℚ) (h : lo ≤ hi) :
    max lo (min (max lo (min v hi)) hi) = max lo (min v hi) := by
  have hu : max lo (min v hi) ≤ hi := max_le h (min_le_right _ _)
  rw [min_eq_left hu, max_eq_right (le_max_left _ _)]

/-- The geometry clamp never changes the `winOpen`, `z`, `maximized` or
`restore` fields. -/
theorem clampWindowToStage_frame (stage : Option StageRect) (s : WindowState) :
    (clampWindowToStage stage s).winOpen = s.winOpen ∧
    (clampWindowToStage stage s).z = s.z ∧
    (clampWindowToStage stage s).maximized = s.maximized ∧
    (clampWindowToStage stage s).restore = s.restore := by
  cases stage with
  | none => exact ⟨rfl, rfl, rfl, rfl⟩
  | some r =>
    by_cases hm : s.maximized <;> simp [clampWindowToStage, hm]

/-- The geometry produced by the clamp depends only on the input's `maximized`
flag and geometry fields, never on `winOpen`, `z` or `restore`. -/
theorem clampWindowToStage_geom_congr (stage : Option StageRect) (a b : WindowState)
    (hm : a.maximized = b.maximized) (hx : a.x = b.x) (hy : a.y = b.y)
    (hw : a.w = b.w) (hh : a.h = b.h) :
    (clampWindowToStage stage a).x = (clampWindowToStage stage b).x ∧
    (clampWindowToStage stage a).y = (clampWindowToStage stage b).y ∧
    (clampWindowToStage stage a).w = (clampWindowToStage stage b).w ∧
    (clampWindowToStage stage a).h = (clampWindowToStage stage b).h := by
  cases stage with
  | none => exact ⟨hx, hy, hw, hh⟩
  | some r =>
    by_cases hma : a.maximized
    · simp [clampWindowToStage, hma, hm ▸ hma]
    · have hmb : b.maximized = false := by rw [← hm]; simpa using hma
      simp [clampWindowToStage, hma, hmb, hx, hy, hw, hh]

end ClampLemmas

/-- C1: for every window state `s` and every stage (absent or any rectangle),
applying the geometry clamp twice against the same stage equals applying it
once: `clamp(clamp(s, stage), stage) = clamp(s, stage)`. -/
theorem clamp_idempotent (stage : Option StageRect) (s : WindowState) :
    clampWindowToStage stage (clampWindowToStage stage s) = clampWindowToStage stage s := by
  cases stage with
  | none => rfl
  | some r =>
    by_cases hm : s.maximized
    · simp [clampWindowToStage, hm, jsFloor]
    · simp only [Bool.not_eq_true] at hm
      simp only [clampWindowToStage, hm, Bool.false_eq_true, if_false]
      rw [max_min_reclamp 320 s.w (max 320 r.width) (le_max_left _ _),
        max_min_reclamp 240 s.h (max 240 r.height) (le_max_left _ _),
        max_min_reclamp 0 s.x (max 0 (r.width - max 320 (min s.w (max 320 r.width))))
          (le_max_left _ _),
        max_min_reclamp 0 s.y (max 0 (r.height - max 240 (min s.h (max 240 r.height))))
          (le_max_left _ _)]

/-- `Math.floor` never exceeds its argument. -/
theorem jsFloor_le (q : ℚ) : jsFloor q ≤ q := Int.floor_le q

/-- One axis of the clamp: with `lo ≤ L`, the clamped size
`w = max lo (min v (max lo L))` and position `p' = max 0 (min p (max 0 (L - w)))`
satisfy `0 ≤ p'` and `p' + w ≤ L`. -/
theorem axis_clamp_contained (lo v p L : ℚ) (h : lo ≤ L) :
    0 ≤ max 0 (min p (max 0 (L - max lo (min v (max lo L))))) ∧
    max 0 (min p (max 0 (L - max lo (min v (max lo L))))) +
      max lo (min v (max lo L)) ≤ L := by
  rw [max_eq_right h]
  have hwle : max lo (min v L) ≤ L := max_le h (min_le_right _ _)
  have hd : (0:ℚ) ≤ L - max lo (min v L) := sub_nonneg.mpr hwle
  rw [max_eq_right hd]
  refine ⟨le_max_left _ _, ?_⟩
  have hxle : max 0 (min p (L - max lo (min v L))) ≤ L - max lo (min v L) :=
    max_le hd (min_le_right _ _)
  linarith

/-- C2 (amended): when the stage element exists and the stage is at least the
minimum panel size (`width ≥ 320`, `height ≥ 240`), every clamped window — and
hence every committed window, all geometry commits going through the clamp —
satisfies `x ≥ 0`, `y ≥ 0`, `x + w ≤ stageWidth`, `y + h ≤ stageHeight`.
(On a stage smaller than the minimum the code keeps the 320×240 minimum size
and containment fails; see the counterexample.) -/
theorem clamp_containment (r : StageRect) (s : WindowState)
    (hW : 320 ≤ r.width) (hH : 240 ≤ r.height) :
    0 ≤ (clampWindowToStage (some r) s).x ∧
    0 ≤ (clampWindowToStage (some r) s).y ∧
    (clampWindowToStage (some r) s).x + (clampWindowToStage (some r) s).w ≤ r.width ∧
    (clampWindowToStage (some r) s).y + (clampWindowToStage (some r) s).h ≤ r.height := by
  by_cases hm : s.maximized
  · simp only [clampWindowToStage, hm, if_true]
    refine ⟨le_refl 0, le_refl 0, ?_, ?_⟩
    · simpa using jsFloor_le r.width
    · simpa using jsFloor_le r.height
  · simp only [Bool.not_eq_true] at hm
    simp only [clampWindowToStage, hm, Bool.false_eq_true, if_false]
    obtain ⟨hx0, hxw⟩ := axis_clamp_contained 320 s.w s.x r.width hW
    obtain ⟨hy0, hyh⟩ := axis_clamp_contained 240 s.h s.y r.height hH
    exact ⟨hx0, hy0, hxw, hyh⟩

/-- Witness for `clamp_containment`: the spec's own concrete instance — stage
`1000×800`, window `w:600, h:500` placed at `(700, 750)` is clamped to
`{x:400, y:300, w:600, h:500}`, which is contained. -/
theorem clamp_containment_witness :
    (0 ≤ (clampWindowToStage (some ⟨1000, 800⟩)
        { winOpen := true, x := 700, y := 750, w := 600, h := 500, z := 1,
          maximized := false, restore := none }).x ∧
     0 ≤ (clampWindowToStage (some ⟨1000, 800⟩)
        { winOpen := true, x := 700, y := 750, w := 600, h := 500, z := 1,
          maximized := false, restore := none }).y ∧
     (clampWindowToStage (some ⟨1000, 800⟩)
        { winOpen := true, x := 700, y := 750, w := 600, h := 500, z := 1,
          maximized := false, restore := none }).x +
       (clampWindowToStage (some ⟨1000, 800⟩)
        { winOpen := true, x := 700, y := 750, w := 600, h := 500, z := 1,
          maximized := false, restore := none }).w ≤ 1000 ∧
     (clampWindowToStage (some ⟨1000, 800⟩)
        { winOpen := true, x := 700, y := 750, w := 600, h := 500, z := 1,
          maximized := false, restore := none }).y +
       (clampWindowToStage (some ⟨1000, 800⟩)
        { winOpen := true, x := 700, y := 750, w := 600, h := 500, z := 1,
          maximized := false, restore := none }).h ≤ 800) ∧
    clampWindowToStage (some ⟨1000, 800⟩)
        { winOpen := true, x := 700, y := 750, w := 600, h := 500, z := 1,
          maximized := false, restore := none } =
      { winOpen := true, x := 400, y := 300, w := 600, h := 500, z := 1,
        maximized := false, restore := none } :=
  ⟨clamp_containment ⟨1000, 800⟩
      { winOpen := true, x := 700, y := 750, w := 600, h := 500, z := 1,
        maximized := false, restore := none }
      (by norm_num) (by norm_num),
   by norm_num [clampWindowToStage]⟩

/-- Counterexample to C2 as stated: on a 100×100 stage (smaller than the
320×240 minimum), opening a window via `toggleWindow` commits a window of width
320, so `x + w ≤ stageWidth` fails. -/
theorem clamp_containment_cex :
    ¬ (((toggleWindow (some ⟨100, 100⟩)
          { chat := { winOpen := false, x := 0, y := 0, w := 500, h := 500, z := 1,
                      maximized := false, restore := none },
            tasks := { winOpen := false, x := 90, y := 70, w := 620, h := 520, z := 2,
                       maximized := false, restore := none },
            agents := { winOpen := false, x := 140, y := 90, w := 860, h := 560, z := 3,
                        maximized := false, restore := none } } .chat).chat).x +
        ((toggleWindow (some ⟨100, 100⟩)
          { chat := { winOpen := false, x := 0, y := 0, w := 500, h := 500, z := 1,
                      maximized := false, restore := none },
            tasks := { winOpen := false, x := 90, y := 70, w := 620, h := 520, z := 2,
                       maximized := false, restore := none },
            agents := { winOpen := false, x := 140, y := 90, w := 860, h := 560, z := 3,
                        maximized := false, restore := none } } .chat).chat).w ≤ 100) := by
  norm_num [toggleWindow, clampWindowToStage, zTop, Windows.get, Windows.set]

/-- C4 (amended): the clamp returns its input unchanged exactly when the stage
element is absent (`stageEl === null`).  When the stage element is present but
its rect is degenerate (non-positive width and height), the input is *not*
returned unchanged: a non-maximized window is forced to the minimum size
320×240 at position `(0, 0)`. -/
theorem clamp_noStage_id_degenerate_clamps :
    (∀ s : WindowState, clampWindowToStage none s = s) ∧
    (∀ (r : StageRect) (s : WindowState), r.width ≤ 0 → r.height ≤ 0 →
      s.maximized = false →
      clampWindowToStage (some r) s = { s with x := 0, y := 0, w := 320, h := 240 }) := by
  constructor
  · intro s; rfl
  · intro r s hw hh hm
    simp only [clampWindowToStage, hm, Bool.false_eq_true, if_false]
    rw [max_eq_left (hw.trans (by norm_num : (0:ℚ) ≤ 320)),
      max_eq_left (hh.trans (by norm_num : (0:ℚ) ≤ 240)),
      max_eq_left (min_le_right s.w 320),
      max_eq_left (min_le_right s.h 240),
      max_eq_left (by linarith : r.width - 320 ≤ (0:ℚ)),
      max_eq_left (by linarith : r.height - 240 ≤ (0:ℚ)),
      max_eq_left (min_le_right s.x 0),
      max_eq_left (min_le_right s.y 0)]

/-- Witness for `clamp_noStage_id_degenerate_clamps`: with no stage element the
clamp is the identity on a concrete window; with a present degenerate stage
rect `(-5)×(-3)` the same window is moved to the 320×240 minimum at the
origin. -/
theorem clamp_noStage_id_degenerate_clamps_witness :
    clampWindowToStage none
      { winOpen := true, x := 10, y := 10, w := 400, h := 300, z := 1,
        maximized := false, restore := none } =
      { winOpen := true, x := 10, y := 10, w := 400, h := 300, z := 1,
        maximized := false, restore := none } ∧
    clampWindowToStage (some ⟨-5, -3⟩)
      { winOpen := true, x := 10, y := 10, w := 400, h := 300, z := 1,
        maximized := false, restore := none } =
      { winOpen := true, x := 0, y := 0, w := 320, h := 240, z := 1,
        maximized := false, restore := none } :=
  ⟨clamp_noStage_id_degenerate_clamps.1 _,
   clamp_noStage_id_degenerate_clamps.2 ⟨-5, -3⟩
     { winOpen := true, x := 10, y := 10, w := 400, h := 300, z := 1,
       maximized := false, restore := none }
     (by norm_num) (by norm_num) rfl⟩

/-- Counterexample to C4 as stated: the stage rect `0×0` has non-positive width
and height, yet the clamp does not return the input unchanged — the code only
checks `stageEl === null`, never the rect's dimensions. -/
theorem clamp_degenerate_stage_cex :
    clampWindowToStage (some ⟨0, 0⟩)
      { winOpen := true, x := 10, y := 10, w := 400, h := 300, z := 1,
        maximized := false, restore := none } ≠
      { winOpen := true, x := 10, y := 10, w := 400, h := 300, z := 1,
        maximized := false, restore := none } := by
  norm_num [clampWindowToStage]

/-- C5 (amended): after the clamp (stage element present), a non-maximized
window always has `w ≥ 320` and `h ≥ 240` — even when the stage itself is
smaller than the minimum, in which case the code keeps the minimum size rather
than degrading to the stage size.  A maximized window instead takes the floored
stage dimensions (which may be below the minimum). -/
theorem clamp_min_size (r : StageRect) (s : WindowState) :
    (s.maximized = false →
      320 ≤ (clampWindowToStage (some r) s).w ∧
      240 ≤ (clampWindowToStage (some r) s).h) ∧
    (s.maximized = true →
      (clampWindowToStage (some r) s).w = jsFloor r.width ∧
      (clampWindowToStage (some r) s).h = jsFloor r.height) := by
  constructor
  · intro hm
    simp only [clampWindowToStage, hm, Bool.false_eq_true, if_false]
    exact ⟨le_max_left _ _, le_max_left _ _⟩
  · intro hm
    simp [clampWindowToStage, hm]

/-- Witness for `clamp_min_size`: on a 100×100 stage a non-maximized window
keeps the minimum size, and a maximized one takes the floored stage size. -/
theorem clamp_min_size_witness :
    (320 ≤ (clampWindowToStage (some ⟨100, 100⟩)
        { winOpen := true, x := 0, y := 0, w := 500, h := 500, z := 1,
          maximized := false, restore := none }).w ∧
     240 ≤ (clampWindowToStage (some ⟨100, 100⟩)
        { winOpen := true, x := 0, y := 0, w := 500, h := 500, z := 1,
          maximized := false, restore := none }).h) ∧
    ((clampWindowToStage (some ⟨100, 100⟩)
        { winOpen := true, x := 0, y := 0, w := 500, h := 500, z := 1,
          maximized := true, restore := some ⟨0, 0, 500, 500⟩ }).w = jsFloor 100 ∧
     (clampWindowToStage (some ⟨100, 100⟩)
        { winOpen := true, x := 0, y := 0, w := 500, h := 500, z := 1,
          maximized := true, restore := some ⟨0, 0, 500, 500⟩ }).h = jsFloor 100) :=
  ⟨(clamp_min_size ⟨100, 100⟩
      { winOpen := true, x := 0, y := 0, w := 500, h := 500, z := 1,
        maximized := false, restore := none }).1 rfl,
   (clamp_min_size ⟨100, 100⟩
      { winOpen := true, x := 0, y := 0, w := 500, h := 500, z := 1,
        maximized := true, restore := some ⟨0, 0, 500, 500⟩ }).2 rfl⟩

/-- Counterexample to C5 as stated: on a 100×100 stage (smaller than the
minimum), the claim says the clamp sets the window's width to the stage
dimension (100); the code instead keeps the minimum width 320. -/
theorem clamp_min_size_cex :
    (clampWindowToStage (some ⟨100, 100⟩)
      { winOpen := true, x := 0, y := 0, w := 500, h := 500, z := 1,
        maximized := false, restore := none }).w ≠ 100 := by
  norm_num [clampWindowToStage]

/-- C10: the geometry clamp returns a state whose `open`, `z`, `maximized` and
`restore` fields are exactly those of the input; only `x`, `y`, `w`, `h` can
differ.  In particular re-clamping a maximized window leaves `restore` intact. -/
theorem clamp_preserves_non_geometry (stage : Option StageRect) (s : WindowState) :
    (clampWindowToStage stage s).winOpen = s.winOpen ∧
    (clampWindowToStage stage s).z = s.z ∧
    (clampWindowToStage stage s).maximized = s.maximized ∧
    (clampWindowToStage stage s).restore = s.restore :=
  clampWindowToStage_frame stage s

section RegistryLemmas

/-- Reading back the window just written. -/
theorem Windows.get_set_self (ws : Windows) (id : WindowId) (s : WindowState) :
    (ws.set id s).get id = s := by
  cases id <;> rfl

/-- Writing one window leaves the others untouched. -/
theorem Windows.get_set_ne (ws : Windows) (id j : WindowId) (s : WindowState)
    (h : j ≠ id) : (ws.set id s).get j = ws.get j := by
  cases id <;> cases j <;> first | rfl | exact absurd rfl h

/-- Every window's `z` is bounded by `zTop`. -/
theorem z_le_zTop (ws : Windows) (j : WindowId) : (ws.get j).z ≤ zTop ws := by
  cases j with
  | chat => exact le_max_left _ _
  | tasks => exact le_trans (le_max_left _ _) (le_max_right _ _)
  | agents => exact le_trans (le_max_right _ _) (le_max_right _ _)

end RegistryLemmas

/-- C8 (amended): `bringToFront(id)` is a no-op exactly when `id` already holds
the maximum `z` among *all* windows — open or closed, the code's
`Math.max(...Object.values(this.windows).map(w => w.z))` does not filter on
`open`.  Otherwise it assigns `z = currentMax + 1`, strictly greater than every
other window's `z`, and changes nothing else. -/
theorem bringToFront_spec (ws : Windows) (id : WindowId) :
    ((ws.get id).z = zTop ws → bringToFront ws id = ws) ∧
    ((ws.get id).z ≠ zTop ws →
      (bringToFront ws id).get id = { ws.get id with z := zTop ws + 1 } ∧
      ∀ j, j ≠ id → (bringToFront ws id).get j = ws.get j ∧
        ((bringToFront ws id).get j).z < ((bringToFront ws id).get id).z) := by
  constructor
  · intro h
    simp [bringToFront, h]
  · intro h
    have hb : bringToFront ws id = ws.set id { ws.get id with z := zTop ws + 1 } := by
      simp [bringToFront, h]
    refine ⟨by rw [hb, Windows.get_set_self], ?_⟩
    intro j hj
    rw [hb, Windows.get_set_ne ws id j _ hj, Windows.get_set_self]
    refine ⟨rfl, ?_⟩
    have := z_le_zTop ws j
    simp only []
    linarith

/-- Witness for `bringToFront_spec`: in a registry with `z` values
`chat = 3`, `tasks = 5`, `agents = 1`, raising `tasks` (already top) is a
no-op, and raising `chat` re-assigns `z = 6`, strictly above the others. -/
theorem bringToFront_spec_witness :
    (bringToFront
      { chat := { winOpen := true, x := 40, y := 40, w := 520, h := 520, z := 3,
                  maximized := false, restore := none },
        tasks := { winOpen := false, x := 90, y := 70, w := 620, h := 520, z := 5,
                   maximized := false, restore := none },
        agents := { winOpen := true, x := 140, y := 90, w := 860, h := 560, z := 1,
                    maximized := false, restore := none } } .tasks =
      { chat := { winOpen := true, x := 40, y := 40, w := 520, h := 520, z := 3,
                  maximized := false, restore := none },
        tasks := { winOpen := false, x := 90, y := 70, w := 620, h := 520, z := 5,
                   maximized := false, restore := none },
        agents := { winOpen := true, x := 140, y := 90, w := 860, h := 560, z := 1,
                    maximized := false, restore := none } }) ∧
    ((bringToFront
      { chat := { winOpen := true, x := 40, y := 40, w := 520, h := 520, z := 3,
                  maximized := false, restore := none },
        tasks := { winOpen := false, x := 90, y := 70, w := 620, h := 520, z := 5,
                   maximized := false, restore := none },
        agents := { winOpen := true, x := 140, y := 90, w := 860, h := 560, z := 1,
                    maximized := false, restore := none } } .chat).get .chat =
      { winOpen := true, x := 40, y := 40, w := 520, h := 520, z := 6,
        maximized := false, restore := none }) := by
  constructor
  · exact (bringToFront_spec _ .tasks).1 (by norm_num [Windows.get, zTop])
  · have h := ((bringToFront_spec
      { chat := { winOpen := true, x := 40, y := 40, w := 520, h := 520, z := 3,
                  maximized := false, restore := none },
        tasks := { winOpen := false, x := 90, y := 70, w := 620, h := 520, z := 5,
                   maximized := false, restore := none },
        agents := { winOpen := true, x := 140, y := 90, w := 860, h := 560, z := 1,
                    maximized := false, restore := none } } .chat).2
      (by norm_num [Windows.get, zTop])).1
    rw [h]
    norm_num [Windows.get, zTop]

/-- Counterexample to C8 as stated: `chat` is open with `z = 3`, `agents` is
open with `z = 1`, and the only greater `z` (5) belongs to the *closed*
`tasks` window — so `chat` holds the maximum `z` among open windows, yet
`bringToFront(chat)` is not a no-op: the code compares against the global
maximum and re-assigns `chat.z = 6`. -/
theorem bringToFront_open_noop_cex :
    (let ws : Windows :=
      { chat := { winOpen := true, x := 40, y := 40, w := 520, h := 520, z := 3,
                  maximized := false, restore := none },
        tasks := { winOpen := false, x := 90, y := 70, w := 620, h := 520, z := 5,
                   maximized := false, restore := none },
        agents := { winOpen := true, x := 140, y := 90, w := 860, h := 560, z := 1,
                    maximized := false, restore := none } }
     ws.chat.winOpen = true ∧ ws.tasks.winOpen = false ∧ ws.agents.winOpen = true ∧
       ws.agents.z < ws.chat.z ∧ bringToFront ws .chat ≠ ws) := by
  refine ⟨rfl, rfl, rfl, by norm_num, ?_⟩
  norm_num [bringToFront, zTop, Windows.get, Windows.set]

/-- C9 (amended): `toggleWindow(id)` flips the `open` flag; when becoming open
it assigns `z = currentMax + 1` (it always bumps `z`, rather than calling
`bringToFront`), and when closing it keeps `z`.  The committed geometry is the
*clamp* of the stored geometry against the current stage, so geometry is
unchanged only when the stored geometry is already clamped. -/
theorem toggleWindow_spec (stage : Option StageRect) (ws : Windows) (id : WindowId) :
    ((toggleWindow stage ws id).get id).winOpen = !(ws.get id).winOpen ∧
    ((ws.get id).winOpen = false →
      ((toggleWindow stage ws id).get id).z = zTop ws + 1) ∧
    ((ws.get id).winOpen = true →
      ((toggleWindow stage ws id).get id).z = (ws.get id).z) ∧
    (((clampWindowToStage stage (ws.get id)).x = (ws.get id).x ∧
      (clampWindowToStage stage (ws.get id)).y = (ws.get id).y ∧
      (clampWindowToStage stage (ws.get id)).w = (ws.get id).w ∧
      (clampWindowToStage stage (ws.get id)).h = (ws.get id).h) →
      ((toggleWindow stage ws id).get id).x = (ws.get id).x ∧
      ((toggleWindow stage ws id).get id).y = (ws.get id).y ∧
      ((toggleWindow stage ws id).get id).w = (ws.get id).w ∧
      ((toggleWindow stage ws id).get id).h = (ws.get id).h) := by
  have hget : (toggleWindow stage ws id).get id =
      clampWindowToStage stage
        { ws.get id with
            winOpen := !(ws.get id).winOpen,
            z := (if !(ws.get id).winOpen then zTop ws + 1 else (ws.get id).z) } := by
    rw [toggleWindow, Windows.get_set_self]
  obtain ⟨ho, hz, -, -⟩ := clampWindowToStage_frame stage
    { ws.get id with
        winOpen := !(ws.get id).winOpen,
        z := (if !(ws.get id).winOpen then zTop ws + 1 else (ws.get id).z) }
  refine ⟨by rw [hget, ho], ?_, ?_, ?_⟩
  · intro hop
    rw [hget, hz]
    simp [hop]
  · intro hop
    rw [hget, hz]
    simp [hop]
  · intro hfix
    obtain ⟨gx, gy, gw, gh⟩ := clampWindowToStage_geom_congr stage
      { ws.get id with
          winOpen := !(ws.get id).winOpen,
          z := (if !(ws.get id).winOpen then zTop ws + 1 else (ws.get id).z) }
      (ws.get id) rfl rfl rfl rfl rfl
    rw [hget]
    exact ⟨gx.trans hfix.1, gy.trans hfix.2.1, gw.trans hfix.2.2.1, gh.trans hfix.2.2.2⟩

/-- Witness for `toggleWindow_spec`: opening the initially closed `chat`
window on a 1000×800 stage flips `open` to `true`, bumps `z` to `zTop + 1 = 4`,
and (its stored geometry already being clamped) keeps `x = 40, y = 40,
w = 520, h = 520`. -/
theorem toggleWindow_spec_witness :
    ((toggleWindow (some ⟨1000, 800⟩) initialWindows .chat).get .chat).winOpen =
      !((initialWindows.get .chat).winOpen) ∧
    ((toggleWindow (some ⟨1000, 800⟩) initialWindows .chat).get .chat).z =
      zTop initialWindows + 1 ∧
    ((toggleWindow (some ⟨1000, 800⟩) initialWindows .chat).get .chat).x =
      (initialWindows.get .chat).x ∧
    ((toggleWindow (some ⟨1000, 800⟩) initialWindows .chat).get .chat).y =
      (initialWindows.get .chat).y ∧
    ((toggleWindow (some ⟨1000, 800⟩) initialWindows .chat).get .chat).w =
      (initialWindows.get .chat).w ∧
    ((toggleWindow (some ⟨1000, 800⟩) initialWindows .chat).get .chat).h =
      (initialWindows.get .chat).h := by
  obtain ⟨h1, h2, -, h4⟩ := toggleWindow_spec (some ⟨1000, 800⟩) initialWindows .chat
  have hfix : (clampWindowToStage (some ⟨1000, 800⟩) (initialWindows.get .chat)).x =
        (initialWindows.get .chat).x ∧
      (clampWindowToStage (some ⟨1000, 800⟩) (initialWindows.get .chat)).y =
        (initialWindows.get .chat).y ∧
      (clampWindowToStage (some ⟨1000, 800⟩) (initialWindows.get .chat)).w =
        (initialWindows.get .chat).w ∧
      (clampWindowToStage (some ⟨1000, 800⟩) (initialWindows.get .chat)).h =
        (initialWindows.get .chat).h := by
    norm_num [clampWindowToStage, initialWindows, Windows.get]
  obtain ⟨g1, g2, g3, g4⟩ := h4 hfix
  exact ⟨h1, h2 rfl, g1, g2, g3, g4⟩

/-- Counterexample to C9 as stated: with stage 1000×800 and the `chat` window
stored (closed) at `{x:700, y:750, w:600, h:500}`, `toggleWindow(chat)` does
*not* leave the geometry unchanged — the commit clamps it to `x = 400`. -/
theorem toggleWindow_geometry_cex :
    ((toggleWindow (some ⟨1000, 800⟩)
      { chat := { winOpen := false, x := 700, y := 750, w := 600, h := 500, z := 1,
                  maximized := false, restore := none },
        tasks := { winOpen := false, x := 90, y := 70, w := 620, h := 520, z := 2,
                   maximized := false, restore := none },
        agents := { winOpen := false, x := 140, y := 90, w := 860, h := 560, z := 3,
                    maximized := false, restore := none } } .chat).chat).x ≠ 700 := by
  norm_num [toggleWindow, clampWindowToStage, zTop, Windows.get, Windows.set]

section MaximizeLemmas

/-- Normal → Maximized step of `toggleMaximizeWindow`: the committed window is
the clamp of the current window with `maximized := true`, the current geometry
snapshotted into `restore`, and `z` raised above the global maximum. -/
theorem toggleMaximize_on (stage : Option StageRect) (ws : Windows) (id : WindowId)
    (hm : (ws.get id).maximized = false) :
    (toggleMaximizeWindow stage ws id).get id =
      clampWindowToStage stage
        { ws.get id with
            maximized := true,
            restore := some ⟨(ws.get id).x, (ws.get id).y, (ws.get id).w, (ws.get id).h⟩,
            z := zTop ws + 1 } := by
  simp [toggleMaximizeWindow, hm, Windows.get_set_self]

/-- Maximized → Normal step of `toggleMaximizeWindow` when a restore rect is
present: the committed window is the clamp of the restore geometry with
`maximized := false`, `restore` cleared, and `z` raised. -/
theorem toggleMaximize_off (stage : Option StageRect) (ws : Windows) (id : WindowId)
    (rc : WindowRect) (hm : (ws.get id).maximized = true)
    (hres : (ws.get id).restore = some rc) :
    (toggleMaximizeWindow stage ws id).get id =
      clampWindowToStage stage
        { ws.get id with
            x := rc.x, y := rc.y, w := rc.w, h := rc.h,
            maximized := false, restore := none, z := zTop ws + 1 } := by
  simp [toggleMaximizeWindow, hm, hres, Windows.get_set_self]

end MaximizeLemmas

/-- C6 (amended): maximizing a non-maximized window commits `maximized = true`,
`x = 0`, `y = 0`, `w = ⌊stageWidth⌋`, `h = ⌊stageHeight⌋` (the code floors the
stage dimensions, so `w`/`h` equal the stage dimensions exactly only when those
are integral), with `restore` holding exactly the geometry at the moment of
maximizing; and re-clamping any maximized window (e.g. on stage reflow)
re-establishes that floored full-stage geometry while leaving `restore`
untouched. -/
theorem maximize_invariant (r : StageRect) (ws : Windows) (id : WindowId)
    (hm : (ws.get id).maximized = false) :
    ((toggleMaximizeWindow (some r) ws id).get id).maximized = true ∧
    ((toggleMaximizeWindow (some r) ws id).get id).x = 0 ∧
    ((toggleMaximizeWindow (some r) ws id).get id).y = 0 ∧
    ((toggleMaximizeWindow (some r) ws id).get id).w = jsFloor r.width ∧
    ((toggleMaximizeWindow (some r) ws id).get id).h = jsFloor r.height ∧
    ((toggleMaximizeWindow (some r) ws id).get id).restore =
      some ⟨(ws.get id).x, (ws.get id).y, (ws.get id).w, (ws.get id).h⟩ ∧
    (∀ s : WindowState, s.maximized = true →
      clampWindowToStage (some r) s =
        { s with x := 0, y := 0, w := jsFloor r.width, h := jsFloor r.height }) := by
  have hcl : ∀ s : WindowState, s.maximized = true →
      clampWindowToStage (some r) s =
        { s with x := 0, y := 0, w := jsFloor r.width, h := jsFloor r.height } := by
    intro s hs
    simp [clampWindowToStage, hs]
  rw [toggleMaximize_on (some r) ws id hm]
  rw [hcl _ rfl]
  exact ⟨rfl, rfl, rfl, rfl, rfl, rfl, hcl⟩

/-- Witness for `maximize_invariant`: maximizing the initial `chat` window on a
1000×800 stage yields `{x:0, y:0, w:1000, h:800, maximized:true}` with
`restore = {x:40, y:40, w:520, h:520}`. -/
theorem maximize_invariant_witness :
    ((toggleMaximizeWindow (some ⟨1000, 800⟩) initialWindows .chat).get .chat).maximized = true ∧
    ((toggleMaximizeWindow (some ⟨1000, 800⟩) initialWindows .chat).get .chat).x = 0 ∧
    ((toggleMaximizeWindow (some ⟨1000, 800⟩) initialWindows .chat).get .chat).y = 0 ∧
    ((toggleMaximizeWindow (some ⟨1000, 800⟩) initialWindows .chat).get .chat).w =
      jsFloor 1000 ∧
    ((toggleMaximizeWindow (some ⟨1000, 800⟩) initialWindows .chat).get .chat).h =
      jsFloor 800 ∧
    ((toggleMaximizeWindow (some ⟨1000, 800⟩) initialWindows .chat).get .chat).restore =
      some ⟨(initialWindows.get .chat).x, (initialWindows.get .chat).y,
            (initialWindows.get .chat).w, (initialWindows.get .chat).h⟩ :=
  by
  obtain ⟨h1, h2, h3, h4, h5, h6, -⟩ :=
    maximize_invariant ⟨1000, 800⟩ initialWindows .chat rfl
  exact ⟨h1, h2, h3, h4, h5, h6⟩

/-- Counterexample to C6 as stated: on a stage of fractional width `1000.5`,
the maximized window's committed width is `⌊1000.5⌋ = 1000`, not the stage
width — the claim's `w = stageWidth` fails for non-integral stage rects. -/
theorem maximize_exact_stage_cex :
    ((toggleMaximizeWindow (some ⟨2001/2, 800⟩) initialWindows .chat).get .chat).w ≠
      2001/2 := by
  norm_num [toggleMaximizeWindow, clampWindowToStage, zTop, Windows.get, Windows.set,
    initialWindows, jsFloor]

/-- C3 (amended): for every window whose stored geometry is already a fixed
point of the clamp for the given stage (true of every committed window, the
clamp being idempotent) and which is not maximized, toggling maximize twice
with the stage unchanged returns exactly the original geometry, with
`maximized = false`, `restore` cleared, and `open` unchanged. -/
theorem toggleMaximize_roundtrip (stage : Option StageRect) (ws : Windows) (id : WindowId)
    (hm : (ws.get id).maximized = false)
    (hfix : clampWindowToStage stage (ws.get id) = ws.get id) :
    ((toggleMaximizeWindow stage (toggleMaximizeWindow stage ws id) id).get id).x =
      (ws.get id).x ∧
    ((toggleMaximizeWindow stage (toggleMaximizeWindow stage ws id) id).get id).y =
      (ws.get id).y ∧
    ((toggleMaximizeWindow stage (toggleMaximizeWindow stage ws id) id).get id).w =
      (ws.get id).w ∧
    ((toggleMaximizeWindow stage (toggleMaximizeWindow stage ws id) id).get id).h =
      (ws.get id).h ∧
    ((toggleMaximizeWindow stage (toggleMaximizeWindow stage ws id) id).get id).maximized =
      false ∧
    ((toggleMaximizeWindow stage (toggleMaximizeWindow stage ws id) id).get id).restore =
      none ∧
    ((toggleMaximizeWindow stage (toggleMaximizeWindow stage ws id) id).get id).winOpen =
      (ws.get id).winOpen := by
  have e1 := toggleMaximize_on stage ws id hm
  obtain ⟨ho1, -, hm1, hr1⟩ := clampWindowToStage_frame stage
    { ws.get id with
        maximized := true,
        restore := some ⟨(ws.get id).x, (ws.get id).y, (ws.get id).w, (ws.get id).h⟩,
        z := zTop ws + 1 }
  have hs1max : ((toggleMaximizeWindow stage ws id).get id).maximized = true := by
    rw [e1]; exact hm1
  have hs1res : ((toggleMaximizeWindow stage ws id).get id).restore =
      some ⟨(ws.get id).x, (ws.get id).y, (ws.get id).w, (ws.get id).h⟩ := by
    rw [e1]; exact hr1
  have hs1open : ((toggleMaximizeWindow stage ws id).get id).winOpen =
      (ws.get id).winOpen := by
    rw [e1]; exact ho1
  have e2 := toggleMaximize_off stage (toggleMaximizeWindow stage ws id) id
    ⟨(ws.get id).x, (ws.get id).y, (ws.get id).w, (ws.get id).h⟩ hs1max hs1res
  rw [e2]
  obtain ⟨hoT, -, hmT, hrT⟩ := clampWindowToStage_frame stage
    { (toggleMaximizeWindow stage ws id).get id with
        x := (ws.get id).x, y := (ws.get id).y, w := (ws.get id).w, h := (ws.get id).h,
        maximized := false, restore := none,
        z := zTop (toggleMaximizeWindow stage ws id) + 1 }
  obtain ⟨gx, gy, gw, gh⟩ := clampWindowToStage_geom_congr stage
    { (toggleMaximizeWindow stage ws id).get id with
        x := (ws.get id).x, y := (ws.get id).y, w := (ws.get id).w, h := (ws.get id).h,
        maximized := false, restore := none,
        z := zTop (toggleMaximizeWindow stage ws id) + 1 }
    (ws.get id) hm.symm rfl rfl rfl rfl
  refine ⟨?_, ?_, ?_, ?_, hmT, hrT, hoT.trans hs1open⟩
  · exact gx.trans (by rw [hfix])
  · exact gy.trans (by rw [hfix])
  · exact gw.trans (by rw [hfix])
  · exact gh.trans (by rw [hfix])

/-- Witness for `toggleMaximize_roundtrip`: the spec's concrete round trip —
stage 1000×800, `chat` initially `{x:40, y:40, w:520, h:520}`; the first
`toggleMaximize` yields `{x:0, y:0, w:1000, h:800, maximized:true}` with
`restore = {40, 40, 520, 520}`, and the second yields back
`{x:40, y:40, w:520, h:520, maximized:false}` with `restore` cleared. -/
theorem toggleMaximize_roundtrip_witness :
    (((toggleMaximizeWindow (some ⟨1000, 800⟩)
        (toggleMaximizeWindow (some ⟨1000, 800⟩) initialWindows .chat) .chat).get .chat).x =
      (initialWindows.get .chat).x ∧
    ((toggleMaximizeWindow (some ⟨1000, 800⟩)
        (toggleMaximizeWindow (some ⟨1000, 800⟩) initialWindows .chat) .chat).get .chat).y =
      (initialWindows.get .chat).y ∧
    ((toggleMaximizeWindow (some ⟨1000, 800⟩)
        (toggleMaximizeWindow (some ⟨1000, 800⟩) initialWindows .chat) .chat).get .chat).w =
      (initialWindows.get .chat).w ∧
    ((toggleMaximizeWindow (some ⟨1000, 800⟩)
        (toggleMaximizeWindow (some ⟨1000, 800⟩) initialWindows .chat) .chat).get .chat).h =
      (initialWindows.get .chat).h ∧
    ((toggleMaximizeWindow (some ⟨1000, 800⟩)
        (toggleMaximizeWindow (some ⟨1000, 800⟩) initialWindows .chat) .chat).get .chat).maximized =
      false ∧
    ((toggleMaximizeWindow (some ⟨1000, 800⟩)
        (toggleMaximizeWindow (some ⟨1000, 800⟩) initialWindows .chat) .chat).get .chat).restore =
      none ∧
    ((toggleMaximizeWindow (some ⟨1000, 800⟩)
        (toggleMaximizeWindow (some ⟨1000, 800⟩) initialWindows .chat) .chat).get .chat).winOpen =
      (initialWindows.get .chat).winOpen) ∧
    (toggleMaximizeWindow (some ⟨1000, 800⟩) initialWindows .chat).get .chat =
      { winOpen := false, x := 0, y := 0, w := 1000, h := 800, z := 4,
        maximized := true, restore := some ⟨40, 40, 520, 520⟩ } := by
  constructor
  · exact toggleMaximize_roundtrip (some ⟨1000, 800⟩) initialWindows .chat rfl
      (by norm_num [clampWindowToStage, initialWindows, Windows.get])
  · norm_num [toggleMaximizeWindow, clampWindowToStage, zTop, Windows.get, Windows.set,
      initialWindows, jsFloor]

/-- Counterexample to C3 as stated: the claim quantifies over *every* window,
but a window whose stored geometry is not clamp-invariant (here `x = -50`,
which only a not-yet-clamped state can hold) does not round-trip: after
maximize + unmaximize the restore rect is re-clamped and `x` becomes `0`. -/
theorem toggleMaximize_roundtrip_cex :
    ((toggleMaximizeWindow (some ⟨1000, 800⟩)
        (toggleMaximizeWindow (some ⟨1000, 800⟩)
          { chat := { winOpen := true, x := -50, y := 40, w := 520, h := 520, z := 1,
                      maximized := false, restore := none },
            tasks := { winOpen := false, x := 90, y := 70, w := 620, h := 520, z := 2,
                       maximized := false, restore := none },
            agents := { winOpen := false, x := 140, y := 90, w := 860, h := 560, z := 3,
                        maximized := false, restore := none } } .chat) .chat).get .chat).x ≠
      -50 := by
  norm_num [toggleMaximizeWindow, clampWindowToStage, zTop, Windows.get, Windows.set, jsFloor]

/-- The two gesture kinds of `beginDrag(id, kind, e)`. -/
inductive DragKind where
  | move
  | resize
deriving DecidableEq

/-- The pointer coordinates of a `PointerEvent` (`clientX` / `clientY`). -/
structure PointerEv where
  clientX : ℚ
  clientY : ℚ
deriving DecidableEq

/-- The `this.dragActive` record captured by `beginDrag`: gesture target,
kind, starting pointer coordinates, and an immutable snapshot `base` of the
window's state at gesture start. -/
structure DragActive where
  id : WindowId
  kind : DragKind
  startX : ℚ
  startY : ℚ
  base : WindowState
deriving DecidableEq

/-- The component state relevant to drag batching: the registry, the active
gesture, `dragRaf` (whether an animation-frame callback is scheduled, i.e.
`this.dragRaf != null`), the pending coalesced update `dragPending`, and a
count of registry commits performed by the frame callback (each assignment of
`this.windows` there is one observable commit). -/
structure DragSys where
  windows : Windows
  dragActive : Option DragActive
  dragRaf : Bool
  dragPending : Option (WindowId × WindowState)
  commits : ℕ
deriving DecidableEq

/-- The candidate rect `nextRaw` computed by the `onMove` handler from the
gesture's base snapshot and a pointer event: the pointer delta is applied to
`base` as a translation (`move`) or a size delta (`resize`). -/
def dragCandidate (d : DragActive) (ev : PointerEv) : WindowState :=
  let dx := ev.clientX - d.startX
  let dy := ev.clientY - d.startY
  match d.kind with
  | .move => { d.base with x := d.base.x + dx, y := d.base.y + dy }
  | .resize => { d.base with w := d.base.w + dx, h := d.base.h + dy }

/-- `private scheduleDragUpdate(id, next)`: record the pending update
(overwriting any previous one) and schedule the animation-frame callback if
one is not already scheduled. -/
def scheduleDragUpdate (st : DragSys) (id : WindowId) (next : WindowState) : DragSys :=
  let st1 := { st with dragPending := some (id, next) }
  if st1.dragRaf then st1 else { st1 with dragRaf := true }

/-- The `onMove` pointer-move handler installed by `beginDrag`: if a gesture is
active, compute the candidate from the base snapshot and the event, clamp it,
and schedule it as the pending update.  No registry commit happens here. -/
def onMoveEvent (stage : Option StageRect) (st : DragSys) (ev : PointerEv) : DragSys :=
  match st.dragActive with
  | none => st
  | some d =>
    scheduleDragUpdate st d.id (clampWindowToStage stage (dragCandidate d ev))

/-- The animation-frame callback scheduled by `scheduleDragUpdate`: it clears
`dragRaf`, takes and clears the pending update, and — if one was present —
commits it to the registry (exactly one commit). -/
def fireAnimationFrame (st : DragSys) : DragSys :=
  if st.dragRaf then
    match st.dragPending with
    | none => { st with dragRaf := false, dragPending := none }
    | some p =>
      { st with dragRaf := false, dragPending := none,
                windows := st.windows.set p.1 p.2, commits := st.commits + 1 }
  else st

/-- Processing any non-empty burst of move events during an active gesture
performs no registry commit, leaves the registry and the gesture untouched,
schedules exactly one animation-frame callback, and leaves as pending update
the clamped candidate computed from the *last* event alone. -/
theorem onMoveEvent_run (stage : Option StageRect) :
    ∀ (evs : List PointerEv) (e : PointerEv) (st : DragSys) (d : DragActive),
      st.dragActive = some d →
      ((e :: evs).foldl (onMoveEvent stage) st).windows = st.windows ∧
      ((e :: evs).foldl (onMoveEvent stage) st).commits = st.commits ∧
      ((e :: evs).foldl (onMoveEvent stage) st).dragActive = st.dragActive ∧
      ((e :: evs).foldl (onMoveEvent stage) st).dragRaf = true ∧
      ((e :: evs).foldl (onMoveEvent stage) st).dragPending =
        some (d.id, clampWindowToStage stage (dragCandidate d (evs.getLastD e))) := by
  intro evs
  induction evs with
  | nil =>
    intro e st d hact
    simp only [List.foldl_cons, List.foldl_nil, List.getLastD]
    rw [onMoveEvent, hact]
    by_cases hraf : st.dragRaf <;>
      simp [scheduleDragUpdate, hraf, hact]
  | cons f fs ih =>
    intro e st d hact
    have hstep : (e :: f :: fs).foldl (onMoveEvent stage) st =
        (f :: fs).foldl (onMoveEvent stage) (onMoveEvent stage st e) := by
      simp [List.foldl_cons]
    have hact' : (onMoveEvent stage st e).dragActive = some d := by
      rw [onMoveEvent, hact]
      by_cases hraf : st.dragRaf
      · simpa [scheduleDragUpdate, hraf] using hact
      · simpa [scheduleDragUpdate, hraf] using hact
    obtain ⟨h1, h2, h3, h4, h5⟩ := ih f (onMoveEvent stage st e) d hact'
    have hwin : (onMoveEvent stage st e).windows = st.windows := by
      rw [onMoveEvent, hact]
      by_cases hraf : st.dragRaf <;> simp [scheduleDragUpdate, hraf]
    have hcom : (onMoveEvent stage st e).commits = st.commits := by
      rw [onMoveEvent, hact]
      by_cases hraf : st.dragRaf <;> simp [scheduleDragUpdate, hraf]
    have hlast : (f :: fs).getLastD e = fs.getLastD f := by
      cases fs <;> simp [List.getLastD]
    rw [hstep]
    exact ⟨h1.trans hwin, h2.trans hcom, h3.trans (hact'.trans hact.symm), h4,
      by rw [h5, hlast]⟩

/-- C7: during an active gesture, for any burst of `N ≥ 1` move events
dispatched before the single scheduled animation-frame callback fires, no
commit happens while the events are processed, and when the callback fires
exactly one registry commit occurs, whose committed state is the clamp of the
candidate rect computed from the gesture's base snapshot and the pointer
coordinates of the *last* event only (last-writer-wins within the frame). -/
theorem drag_frame_coalescing (stage : Option StageRect) (st : DragSys) (d : DragActive)
    (e : PointerEv) (evs : List PointerEv)
    (hact : st.dragActive = some d) (hraf : st.dragRaf = false)
    (hpend : st.dragPending = none) :
    ((e :: evs).foldl (onMoveEvent stage) st).windows = st.windows ∧
    ((e :: evs).foldl (onMoveEvent stage) st).commits = st.commits ∧
    (fireAnimationFrame ((e :: evs).foldl (onMoveEvent stage) st)).commits =
      st.commits + 1 ∧
    (fireAnimationFrame ((e :: evs).foldl (onMoveEvent stage) st)).windows =
      st.windows.set d.id
        (clampWindowToStage stage (dragCandidate d (evs.getLastD e))) ∧
    (fireAnimationFrame ((e :: evs).foldl (onMoveEvent stage) st)).dragPending = none ∧
    (fireAnimationFrame ((e :: evs).foldl (onMoveEvent stage) st)).dragRaf = false := by
  obtain ⟨h1, h2, h3, h4, h5⟩ := onMoveEvent_run stage evs e st d hact
  have hfire : fireAnimationFrame ((e :: evs).foldl (onMoveEvent stage) st) =
      { (e :: evs).foldl (onMoveEvent stage) st with
          dragRaf := false, dragPending := none,
          windows := ((e :: evs).foldl (onMoveEvent stage) st).windows.set d.id
            (clampWindowToStage stage (dragCandidate d (evs.getLastD e))),
          commits := ((e :: evs).foldl (onMoveEvent stage) st).commits + 1 } := by
    rw [fireAnimationFrame, h4, h5]
    simp
  refine ⟨h1, h2, ?_, ?_, ?_, ?_⟩
  · rw [hfire]
    show ((e :: evs).foldl (onMoveEvent stage) st).commits + 1 = st.commits + 1
    rw [h2]
  · rw [hfire]
    show ((e :: evs).foldl (onMoveEvent stage) st).windows.set d.id
        (clampWindowToStage stage (dragCandidate d (evs.getLastD e))) =
      st.windows.set d.id (clampWindowToStage stage (dragCandidate d (evs.getLastD e)))
    rw [h1]
  · rw [hfire]
  · rw [hfire]

/-- Witness for `drag_frame_coalescing`: a gesture moving `chat` from its base
`{x:40, y:40}` (pointer start `(100,100)`), two move events `(110,105)` then
`(150,160)` before the frame fires — one commit, geometry from the last event
only: `x = 40 + 50 = 90`, `y = 40 + 60 = 100`. -/
theorem drag_frame_coalescing_witness :
    (([⟨110, 105⟩, ⟨150, 160⟩] : List PointerEv).foldl
        (onMoveEvent (some ⟨1000, 800⟩))
        { windows := initialWindows,
          dragActive := some { id := .chat, kind := .move, startX := 100, startY := 100,
                               base := initialWindows.chat },
          dragRaf := false, dragPending := none, commits := 0 }).commits = 0 ∧
    (fireAnimationFrame (([⟨110, 105⟩, ⟨150, 160⟩] : List PointerEv).foldl
        (onMoveEvent (some ⟨1000, 800⟩))
        { windows := initialWindows,
          dragActive := some { id := .chat, kind := .move, startX := 100, startY := 100,
                               base := initialWindows.chat },
          dragRaf := false, dragPending := none, commits := 0 })).commits = 1 ∧
    (fireAnimationFrame (([⟨110, 105⟩, ⟨150, 160⟩] : List PointerEv).foldl
        (onMoveEvent (some ⟨1000, 800⟩))
        { windows := initialWindows,
          dragActive := some { id := .chat, kind := .move, startX := 100, startY := 100,
                               base := initialWindows.chat },
          dragRaf := false, dragPending := none, commits := 0 })).windows.chat.x = 90 ∧
    (fireAnimationFrame (([⟨110, 105⟩, ⟨150, 160⟩] : List PointerEv).foldl
        (onMoveEvent (some ⟨1000, 800⟩))
        { windows := initialWindows,
          dragActive := some { id := .chat, kind := .move, startX := 100, startY := 100,
                               base := initialWindows.chat },
          dragRaf := false, dragPending := none, commits := 0 })).windows.chat.y = 100 := by
  obtain ⟨-, h2, h3, h4, -, -⟩ := drag_frame_coalescing (some ⟨1000, 800⟩)
    { windows := initialWindows,
      dragActive := some { id := .chat, kind := .move, startX := 100, startY := 100,
                           base := initialWindows.chat },
      dragRaf := false, dragPending := none, commits := 0 }
    { id := .chat, kind := .move, startX := 100, startY := 100,
      base := initialWindows.chat }
    ⟨110, 105⟩ [⟨150, 160⟩] rfl rfl rfl
  refine ⟨h2, h3, ?_, ?_⟩
  · rw [h4]
    norm_num [Windows.set, dragCandidate, clampWindowToStage, initialWindows, List.getLastD]
  · rw [h4]
    norm_num [Windows.set, dragCandidate, clampWindowToStage, initialWindows, List.getLastD]
